import Mathlib

/-!
Shallow embedding of the `vidgo` video-generation client library
(github.com/feitianbubu/vidgo) in Lean 4, together with theorems checking
the natural-language specification of the library against the code.

Sources embedded here:
  * `src/errors.go`          — error taxonomy and `IsRetryableError`
  * `src/types.go`           — canonical data model (field-identical to the
                               `adapters` package copies in `src/adapters/kling.go`;
                               the `adapterWrapper` in `src/unnamed/part_000`
                               copies field-for-field between the two, so one
                               Lean structure stands for both)
  * `src/client.go`          — `Client.validateRequest`, the retry loops of
                               `Client.CreateGeneration` / `Client.GetGeneration`,
                               `Client.WaitForCompletion`, `createProvider`,
                               `NewClient`
  * `src/adapters/kling/kling.go` — the `kling` package `Provider` (the variant
                               wired in by `createProvider`)
  * `src/adapters/kling.go`  — the `adapters.KlingProvider` variant

Go `error` values are modelled by the inductive `GoError`.  `float64`
values are modelled by `ℚ`: every finite binary64 value is a rational.
Fields the code only ever compares against exactly-representable constants
(`Duration` against 5.0 and 10.0) carry the exact rational; where the code
performs `float64` arithmetic — the aspect-ratio quotient
`float64(width)/float64(height)` — the rounding of the conversion, of the
division, and of the literal 0.7 is modelled explicitly by `roundFloat`,
IEEE-754 round-to-nearest ties-to-even in the normal range.  HTTP transport
and JSON decoding are external collaborators; provider calls are modelled
as oracles (`Nat → Except GoError _` for attempt sequences,
`Except GoError _` for a single already-decoded wire exchange), and the Go
`context` cancellation is an oracle `Nat → Bool` saying whether the context
is done before a given iteration of a loop.
-/

deriving instance DecidableEq for Except

set_option maxRecDepth 100000

namespace Vidgo

/-! ## Error model (`src/errors.go`) -/

/-- Model of a Go `error` value as used in this repository:
`apiError` is the typed `*APIError{Code, Message, Provider}`,
`validationError` the typed `*ValidationError{Field, Message}`,
`sentinel` an `errors.New` package-level sentinel (identified by its text,
which is distinct for every sentinel in `src/errors.go`),
`formatted` a `fmt.Errorf` error without `%w`, and
`wrapped` a `fmt.Errorf("...: %w", err)` error (message prefix + cause). -/
inductive GoError : Type where
  | apiError (code : Int) (message : String) (provider : String)
  | validationError (field : String) (message : String)
  | sentinel (name : String)
  | formatted (msg : String)
  | wrapped (msg : String) (cause : GoError)
  deriving DecidableEq, Repr

/-- Sentinel `ErrUnsupportedProvider = errors.New("unsupported provider")`. -/
def ErrUnsupportedProvider : GoError := .sentinel "unsupported provider"

/-- Sentinel `ErrNetworkError = errors.New("network error")`. -/
def ErrNetworkError : GoError := .sentinel "network error"

/-- Sentinel `ErrRateLimitExceeded = errors.New("rate limit exceeded")`. -/
def ErrRateLimitExceeded : GoError := .sentinel "rate limit exceeded"

/-- Error returned by `ctx.Err()` when a Go context is cancelled. -/
def ctxCanceledErr : GoError := .sentinel "context canceled"

/-- Model of Go `errors.Is(err, target)`: equality, else unwrap `%w` chains. -/
def errorsIs : GoError → GoError → Bool
  | e, target =>
    if e = target then true
    else match e with
      | .wrapped _ cause => errorsIs cause target
      | _ => false

/-- `IsRetryableError` from `src/errors.go`: a typed `*APIError` is retryable
iff its code is ≥ 500 or equals 429; otherwise retryable iff the error wraps
the network or rate-limit sentinel. -/
def IsRetryableError (err : GoError) : Bool :=
  match err with
  | .apiError code _ _ => code ≥ 500 || code = 429
  | _ => errorsIs err ErrNetworkError || errorsIs err ErrRateLimitExceeded

/-! ## Canonical data model (`src/types.go` / `src/adapters/kling.go`) -/

/-- Go's `TaskStatus` is a `string` type; any string value is possible at
runtime (the four constants below are the declared vocabulary). -/
abbrev TaskStatus := String

def TaskStatusQueued : TaskStatus := "queued"
def TaskStatusProcessing : TaskStatus := "processing"
def TaskStatusSucceeded : TaskStatus := "succeeded"
def TaskStatusFailed : TaskStatus := "failed"

/-- `GenerationRequest` (metadata map omitted: no embedded operation below
reads it; the Go zero value of each string field is `""`, of `Duration` is
`0`, and `Seed` is a nullable pointer). -/
structure GenerationRequest where
  prompt : String := ""
  image : String := ""
  style : String := ""
  duration : ℚ := 0
  fps : Int := 0
  width : Int := 0
  height : Int := 0
  responseFormat : String := ""
  qualityLevel : String := ""
  seed : Option Int := none
  model : String := ""
  deriving DecidableEq, Repr

/-- `GenerationResponse{TaskID, Status}`. -/
structure GenerationResponse where
  taskID : String
  status : TaskStatus
  deriving DecidableEq, Repr

/-- `Metadata` attached to a finished task. -/
structure Metadata where
  duration : ℚ := 0
  fps : Int := 0
  width : Int := 0
  height : Int := 0
  seed : Option Int := none
  format : String := ""
  deriving DecidableEq, Repr

/-- `TaskError{Code, Message}`. -/
structure TaskError where
  code : Int
  message : String
  deriving DecidableEq, Repr

/-- `TaskResult`; `URL`/`Format` are plain strings (Go zero value `""`),
`Metadata`/`Error` are nullable pointers modelled as `Option`. -/
structure TaskResult where
  taskID : String
  status : TaskStatus
  url : String := ""
  format : String := ""
  metadata : Option Metadata := none
  error : Option TaskError := none
  deriving DecidableEq, Repr

/-- `ProviderConfig` (the `vidgo` and `adapters` copies are field-identical
and `createProvider` copies field-for-field; `Timeout` is a `time.Duration`
modelled in nanoseconds, `Extra` omitted as never read). -/
structure ProviderConfig where
  baseURL : String := ""
  apiKey : String := ""
  secretKey : String := ""
  timeout : Int := 0
  retryCount : Int := 0
  deriving DecidableEq, Repr

/-- `ClientConfig{Timeout, MaxRetries, RetryDelay, Debug}` (durations in
nanoseconds; `MaxRetries` is kept as `Nat` — the repository only ever uses
non-negative values, the default being 3). -/
structure ClientConfig where
  timeout : Int
  maxRetries : Nat
  retryDelay : Int
  debug : Bool
  deriving DecidableEq, Repr

/-- `DefaultClientConfig()`: 30s timeout, 3 retries, 1s delay. -/
def DefaultClientConfig : ClientConfig :=
  { timeout := 30 * 1000000000, maxRetries := 3, retryDelay := 1000000000, debug := false }

/-! ## Vendor wire shapes shared by both Kling variants -/

/-- Decoded `KlingGenerationResponse{Code, Message, Data:{TaskID}}`. -/
structure KlingGenerationResponse where
  code : Int
  message : String
  taskID : String
  deriving DecidableEq, Repr

/-- `KlingVideo{ID, URL, Duration}` (duration is a string on the wire). -/
structure KlingVideo where
  id : String := ""
  url : String := ""
  duration : String := ""
  deriving DecidableEq, Repr

/-- `KlingTaskResultData{Videos}`. -/
structure KlingTaskResultData where
  videos : List KlingVideo := []
  deriving DecidableEq, Repr

/-- `KlingTaskResult` (the `data` object of a decoded task-status response;
`Task` sub-object omitted as never read by `convertToTaskResult`). -/
structure KlingTaskResult where
  id : String := ""
  status : String := ""
  createdAt : Int := 0
  updatedAt : Int := 0
  taskResult : Option KlingTaskResultData := none
  deriving DecidableEq, Repr

/-- Decoded `KlingTaskResponse{Code, Message, Data}`. -/
structure KlingTaskResponse where
  code : Int
  message : String
  data : KlingTaskResult
  deriving DecidableEq, Repr

/-! ## Model of `strconv.ParseFloat` (standard library collaborator)

`convertToTaskResult` calls `strconv.ParseFloat(video.Duration, 64)` and only
branches on success/failure.  The model below accepts the decimal forms
`[+-]digits[.digits][(e|E)[+-]digits]` (at least one mantissa digit; a bare
leading or trailing dot is allowed, as in Go) and returns the exact rational
value; the exotic forms Go additionally accepts (`Inf`, `NaN`, hex floats,
digit-group underscores) are not modelled — no claim below depends on them. -/

/-- Numeric value of a list of decimal digit characters. -/
def digitsVal (cs : List Char) : Nat :=
  cs.foldl (fun acc c => acc * 10 + (c.toNat - 48)) 0

/-- Model of `strconv.ParseFloat(s, 64)` restricted to decimal forms,
returning the exact rational value on success.  The mantissa digits
`intPart.fracPart` denote `digitsVal (intPart ++ fracPart) / 10 ^ |fracPart|`,
and a decimal exponent scales numerator or denominator by a power of ten. -/
def goParseFloat (s : String) : Option ℚ :=
  let cs := s.data
  let neg := cs.head? = some '-'
  let cs := if cs.head? = some '+' ∨ cs.head? = some '-' then cs.tail else cs
  let intPart := cs.takeWhile Char.isDigit
  let afterInt := cs.dropWhile Char.isDigit
  let hasDot := afterInt.head? = some '.'
  let fracPart := if hasDot then afterInt.tail.takeWhile Char.isDigit else []
  let afterFrac := if hasDot then afterInt.tail.dropWhile Char.isDigit else afterInt
  if intPart = [] ∧ fracPart = [] then none
  else
    let mantNum : Int := (if neg then -1 else 1) * (digitsVal (intPart ++ fracPart) : Int)
    let mantDen : Nat := 10 ^ fracPart.length
    match afterFrac with
    | [] => some (mkRat mantNum mantDen)
    | e :: erest =>
      if e = 'e' ∨ e = 'E' then
        let eneg := erest.head? = some '-'
        let edigits := if erest.head? = some '+' ∨ erest.head? = some '-' then erest.tail else erest
        if edigits ≠ [] ∧ edigits.all Char.isDigit then
          if eneg then some (mkRat mantNum (mantDen * 10 ^ digitsVal edigits))
          else some (mkRat (mantNum * (10 ^ digitsVal edigits : Nat)) mantDen)
        else none
      else none

/-- Model of Go `strings.Split(s, sep)` for a one-character separator, over
character lists: `n` separators yield `n + 1` parts. -/
def goSplit (sep : Char) : List Char → List (List Char)
  | [] => [[]]
  | c :: rest =>
    let r := goSplit sep rest
    if c = sep then [] :: r
    else (c :: r.headD []) :: r.tail

/-- White-space test of Go `unicode.IsSpace` restricted to the code points
below U+2000 (the only ones relevant to API-key trimming). -/
def goIsSpace (c : Char) : Bool :=
  c ∈ ([' ', '\t', '\n', '\x0b', '\x0c', '\r', '\x85', '\xa0'] : List Char)

/-- Model of Go `strings.TrimSpace`. -/
def goTrimSpace (cs : List Char) : List Char :=
  ((cs.dropWhile goIsSpace).reverse.dropWhile goIsSpace).reverse

/-! ## Model of IEEE-754 binary64 rounding (for `float64` arithmetic)

`getAspectRatio` computes `float64(width)/float64(height)` and compares the
result against the literals `1.5` and `0.7`.  Every finite `float64` value
is a rational, and conversion/division round the exact mathematical result
to the nearest representable value (ties to even), so the faithful model is
round-to-nearest-even on exact rationals.  Only the normal range matters
here: the adapter rounds quotients of `int`-sized values and the two
literals, all far from overflow and subnormal territory (a nonzero quotient
of 64-bit integers lies between 2⁻⁶³ and 2⁶³). -/

/-- Fuel-bounded ⌊log₂ (a/b)⌋ for positive naturals `a`, `b`, by doubling
the smaller side until the quotient lands in [1, 2).  Fuel 4200 covers the
entire binary64 exponent range with  room to spare. -/
def floorLog2Nat : Nat → Nat → Nat → Int
  | 0, _, _ => 0
  | fuel + 1, a, b =>
    if a < b then floorLog2Nat fuel (2 * a) b - 1
    else if 2 * b ≤ a then floorLog2Nat fuel a (2 * b) + 1
    else 0

/-- Round the positive rational `a / b` to the nearest binary64 value
(round to nearest, ties to even), returned as an exact rational: scale into
the 53-bit mantissa window [2⁵², 2⁵³), round the mantissa half-to-even, and
scale back. -/
def roundFloatPos (a b : Nat) : ℚ :=
  let k : Int := floorLog2Nat 4200 a b
  let shift : Int := 52 - k
  let num : Nat := if 0 ≤ shift then a * 2 ^ shift.toNat else a
  let den : Nat := if 0 ≤ shift then b else b * 2 ^ (-shift).toNat
  let lo : Nat := num / den
  let rem : Nat := num % den
  let m : Nat :=
    if den < 2 * rem then lo + 1
    else if 2 * rem < den then lo
    else if lo % 2 = 0 then lo else lo + 1
  if 0 ≤ shift then mkRat m (2 ^ shift.toNat) else mkRat (m * 2 ^ (-shift).toNat) 1

/-- Round a rational to the nearest binary64 value (normal range).  Zero and
sign are handled exactly, as in IEEE-754. -/
def roundFloat (q : ℚ) : ℚ :=
  if q = 0 then 0
  else if 0 < q then roundFloatPos q.num.natAbs q.den
  else -roundFloatPos q.num.natAbs q.den

/-- Exact quotient of two rationals via `mkRat` (the mathematical input to
the rounded `float64` division; division by zero yields 0 in this model —
the IEEE infinity produced by Go on a zero divisor is outside it, and every
statement below keeps the divisor nonzero). -/
def ratDiv (x y : ℚ) : ℚ :=
  if 0 ≤ y.num then mkRat (x.num * y.den) (x.den * y.num.toNat)
  else mkRat (-(x.num * y.den)) (x.den * (-y.num).toNat)

namespace Kling

/-! ## The `kling` package `Provider` (`src/adapters/kling/kling.go`)

This is the variant `createProvider` wires into the client. -/

/-- `supportedModels` of the `kling` package. -/
def supportedModels : List String := ["kling-v1", "kling-v1-6", "kling-v2-master"]

/-- State of a constructed `kling.Provider` (the `http.Client` collaborator
and the original config pointer carry no behaviour modelled here). -/
structure Provider where
  baseURL : String
  accessKey : String
  secretKey : String
  deriving DecidableEq, Repr

/-- `kling.New(config)`: nil config is rejected; the API key must split on
`","` into exactly two parts (`len(keyParts) != 2` is the only check — the
parts are not required to be non-empty); `baseURL` defaults to
`https://api.klingai.com`; the key halves are whitespace-trimmed. -/
def New (config : Option ProviderConfig) : Except GoError Provider :=
  match config with
  | none => .error (.formatted "invalid configuration")
  | some config =>
    match goSplit ',' config.apiKey.data with
    | [ak, sk] =>
      .ok { baseURL := if config.baseURL = "" then "https://api.klingai.com" else config.baseURL
            accessKey := String.mk (goTrimSpace ak)
            secretKey := String.mk (goTrimSpace sk) }
    | _ => .error (.formatted "invalid API key format for Kling, expected 'access_key,secret_key'")

/-- Claim set of the JWT bearer token built by `createJWTToken`. -/
structure JWTClaims where
  iss : String
  exp : Int
  nbf : Int
  deriving DecidableEq, Repr

/-- `createJWTToken` claims: issuer = access key, expiry = now+1800s,
not-before = now−5s (HS256 signing with the secret key always succeeds for
string keys, so the token-creation error path is dead in this model). -/
def createJWTToken (p : Provider) (now : Int) : JWTClaims :=
  { iss := p.accessKey, exp := now + 1800, nbf := now - 5 }

/-- `kling.Provider.ValidateRequest`: a non-empty model not in
`supportedModels` fails first (plain `fmt.Errorf`); then a duration other
than exactly 5.0 or 10.0 fails (plain `fmt.Errorf`); errors here are
untyped formatted errors, not `*ValidationError`. -/
def ValidateRequest (req : GenerationRequest) : Option GoError :=
  if req.model ≠ "" ∧ req.model ∉ supportedModels then
    some (.formatted ("unsupported model: " ++ req.model))
  else if req.duration ≠ 5 ∧ req.duration ≠ 10 then
    some (.formatted "Kling only supports 5s or 10s duration")
  else
    none

/-- The `float64` quotient `float64(width)/float64(height)` computed by
`getAspectRatio`: both dimensions are converted to `float64` (exact below
2⁵³, rounded above) and the division rounds its exact result to the nearest
binary64 value. -/
def floatRatio (width height : Int) : ℚ :=
  roundFloat (ratDiv (roundFloat (mkRat width 1)) (roundFloat (mkRat height 1)))

/-- `getAspectRatio` (identical in both variants): bucket the rounded
`float64` ratio width/height against the literals 1.5 (exactly
representable, so written `mkRat 3 2`) and 0.7 (not representable — the
comparison is against the binary64 value of the literal,
`roundFloat (mkRat 7 10)`, which is slightly below 7/10). -/
def getAspectRatio (width height : Int) : String :=
  let ratio : ℚ := floatRatio width height
  if ratio > mkRat 3 2 then "16:9"
  else if ratio < roundFloat (mkRat 7 10) then "9:16"
  else "1:1"

/-- `convertStatus` (identical in both variants): vendor status vocabulary to
canonical `TaskStatus`, defaulting to queued. -/
def convertStatus (status : String) : TaskStatus :=
  if status = "submitted" ∨ status = "queued" then TaskStatusQueued
  else if status = "processing" then TaskStatusProcessing
  else if status = "succeed" then TaskStatusSucceeded
  else if status = "failed" then TaskStatusFailed
  else TaskStatusQueued

/-- `convertToTaskResult` (identical in both variants): status is mapped via
`convertStatus`; whenever the vendor payload carries at least one video the
first video's URL and format `"mp4"` are copied regardless of status, and
`Metadata` is set only when the video's duration string parses; the `Error`
field is never assigned. -/
def convertToTaskResult (data : KlingTaskResult) : TaskResult :=
  let base : TaskResult := { taskID := data.id, status := convertStatus data.status }
  match data.taskResult with
  | some tr =>
    match tr.videos with
    | [] => base
    | video :: _ =>
      let withVideo := { base with url := video.url, format := "mp4" }
      match goParseFloat video.duration with
      | some d => { withVideo with metadata := some { duration := d, format := "mp4" } }
      | none => withVideo
  | none => base

/-- `kling.Provider.CreateGeneration`, with the token creation (always
succeeds, see `createJWTToken`), HTTP `POST {baseURL}/v1/videos/image2video`
and JSON decode abstracted into the `wire` oracle: a `wire` error is a
transport/decode failure returned as-is from `makeRequest`/decode, a `wire`
success is the decoded vendor response.  On a non-zero vendor code the
returned error is the plain `fmt.Errorf("API error %d: %s", code, message)`
— not a typed `*APIError`. -/
def CreateGeneration (_p : Provider) (wire : Except GoError KlingGenerationResponse) :
    Except GoError GenerationResponse :=
  match wire with
  | .error e => .error e
  | .ok resp =>
    if resp.code ≠ 0 then
      .error (.formatted ("API error " ++ toString resp.code ++ ": " ++ resp.message))
    else
      .ok { taskID := resp.taskID, status := TaskStatusQueued }

/-- `kling.Provider.GetGeneration`, transport/decode abstracted as in
`CreateGeneration`; non-zero vendor code yields the same untyped formatted
error, success is converted via `convertToTaskResult`. -/
def GetGeneration (_p : Provider) (wire : Except GoError KlingTaskResponse) :
    Except GoError TaskResult :=
  match wire with
  | .error e => .error e
  | .ok resp =>
    if resp.code ≠ 0 then
      .error (.formatted ("API error " ++ toString resp.code ++ ": " ++ resp.message))
    else
      .ok (convertToTaskResult resp.data)

end Kling

namespace KlingProvider

/-! ## The `adapters.KlingProvider` variant (`src/adapters/kling.go`)

Structurally the same adapter, but its validation and vendor-code errors are
the typed `*ValidationError` / `*APIError`; not reachable through
`createProvider`. -/

/-- `klingModels` of `src/adapters/kling.go`. -/
def klingModels : List String := ["kling-v1", "kling-v1-6", "kling-v2-master"]

/-- `KlingProvider.ValidateRequest`: same decision procedure as the `kling`
package variant, but failures are typed `*ValidationError`s (field `model`
first, then field `duration`). -/
def ValidateRequest (req : GenerationRequest) : Option GoError :=
  if req.model ≠ "" ∧ req.model ∉ klingModels then
    some (.validationError "model" ("unsupported model: " ++ req.model))
  else if req.duration ≠ 5 ∧ req.duration ≠ 10 then
    some (.validationError "duration" "Kling only supports 5s or 10s duration")
  else
    none

/-- `KlingProvider.CreateGeneration` with transport/decode abstracted as the
`wire` oracle: a non-zero vendor code yields the typed
`&APIError{Code, Message, Provider: "Kling"}`. -/
def CreateGeneration (wire : Except GoError KlingGenerationResponse) :
    Except GoError GenerationResponse :=
  match wire with
  | .error e => .error e
  | .ok resp =>
    if resp.code ≠ 0 then
      .error (.apiError resp.code resp.message "Kling")
    else
      .ok { taskID := resp.taskID, status := TaskStatusQueued }

end KlingProvider

namespace Client

/-! ## The `Client` (`src/client.go`)

The underlying provider is an oracle: `providerValidate` stands for
`provider.ValidateRequest`, and an attempt oracle `Nat → Except GoError α`
gives the outcome of the i-th call to `provider.CreateGeneration` /
`provider.GetGeneration` (index = number of earlier calls in the same loop).
Context cancellation is the oracle `cancelled : Nat → Bool`: whether the
context is done at the blocking point preceding iteration `i`. -/

/-- `Client.validateRequest`: nil request, empty prompt+image, non-positive
duration/width/height each fail with a local `*ValidationError`, in this
order; only then is the provider's `ValidateRequest` consulted. -/
def validateRequest (providerValidate : GenerationRequest → Option GoError)
    (req : Option GenerationRequest) : Option GoError :=
  match req with
  | none => some (.validationError "request" "request cannot be nil")
  | some req =>
    if req.prompt = "" ∧ req.image = "" then
      some (.validationError "prompt/image" "at least one of prompt or image must be provided")
    else if req.duration ≤ 0 then
      some (.validationError "duration" "duration must be positive")
    else if req.width ≤ 0 then
      some (.validationError "width" "width must be positive")
    else if req.height ≤ 0 then
      some (.validationError "height" "height must be positive")
    else
      providerValidate req

/-- One retry loop of `Client.CreateGeneration` / `Client.GetGeneration`,
with `remaining` iterations left and `i` the index of the next attempt.
Mirrors the Go loop body: for `i > 0` first sleep `RetryDelay` racing the
context (a done context aborts with `ctx.Err()`); then call the provider;
success returns immediately; a non-retryable error breaks the loop; a
retryable error records `lastErr` and continues.  The second component is
the number of provider invocations performed.  The `lastErr.getD` in the
exhausted case is unreachable from `retryLoop` (the loop always runs at
least one iteration, so `lastErr` is set whenever exhaustion is reached). -/
def retryLoopAux (cancelled : Nat → Bool) (attempt : Nat → Except GoError α) :
    Nat → Nat → Option GoError → Except GoError α × Nat
  | _, 0, lastErr => (.error (lastErr.getD (.formatted "loop did not run")), 0)
  | i, remaining + 1, _lastErr =>
    if i > 0 ∧ cancelled i then
      (.error ctxCanceledErr, 0)
    else
      match attempt i with
      | .ok v => (.ok v, 1)
      | .error e =>
        if IsRetryableError e then
          let rest := retryLoopAux cancelled attempt (i + 1) remaining (some e)
          (rest.1, rest.2 + 1)
        else
          (.error e, 1)

/-- The retry loop `for i := 0; i <= MaxRetries; i++ { ... }`:
`maxRetries + 1` iterations starting at attempt 0 with no recorded error. -/
def retryLoop (maxRetries : Nat) (cancelled : Nat → Bool)
    (attempt : Nat → Except GoError α) : Except GoError α × Nat :=
  retryLoopAux cancelled attempt 0 (maxRetries + 1) none

/-- `Client.CreateGeneration`: validate locally (and via the provider), then
run the retry loop.  Returns the result and the number of provider
`CreateGeneration` invocations (0 when validation fails — no network call). -/
def CreateGeneration (cfg : ClientConfig)
    (providerValidate : GenerationRequest → Option GoError)
    (cancelled : Nat → Bool)
    (attempt : Nat → Except GoError GenerationResponse)
    (req : Option GenerationRequest) : Except GoError GenerationResponse × Nat :=
  match validateRequest providerValidate req with
  | some e => (.error e, 0)
  | none => retryLoop cfg.maxRetries cancelled attempt

/-- `Client.GetGeneration`: an empty task ID fails fast with a
`*ValidationError`; otherwise the same retry loop around the provider's
`GetGeneration`. -/
def GetGeneration (cfg : ClientConfig) (cancelled : Nat → Bool)
    (attempt : Nat → Except GoError TaskResult)
    (taskID : String) : Except GoError TaskResult × Nat :=
  if taskID = "" then
    (.error (.validationError "task_id" "task ID cannot be empty"), 0)
  else
    retryLoop cfg.maxRetries cancelled attempt

/-- `Client.WaitForCompletion` polling loop with `fuel` remaining ticks
(the Go loop is unbounded; `none` means the budget ran out while the task
was still queued/processing).  Each iteration: the `select` races the
context against the ticker — a done context returns `ctx.Err()` before the
tick's `GetGeneration` call; otherwise poll `i` runs: an error returns it,
status succeeded/failed returns the result, queued/processing continues,
and any other status returns the result (unknown treated as terminal).
The second component counts `GetGeneration` calls performed. -/
def waitForCompletionAux (cancelled : Nat → Bool)
    (poll : Nat → Except GoError TaskResult) :
    Nat → Nat → Option (Except GoError TaskResult × Nat)
  | _, 0 => none
  | i, fuel + 1 =>
    if cancelled i then
      some (.error ctxCanceledErr, i)
    else
      match poll i with
      | .error e => some (.error e, i + 1)
      | .ok r =>
        if r.status = TaskStatusSucceeded ∨ r.status = TaskStatusFailed then
          some (.ok r, i + 1)
        else if r.status = TaskStatusQueued ∨ r.status = TaskStatusProcessing then
          waitForCompletionAux cancelled poll (i + 1) fuel
        else
          some (.ok r, i + 1)

/-- `Client.WaitForCompletion` from the first tick (the `pollInterval <= 0`
defaulting only affects real time, which is not modelled). -/
def WaitForCompletion (cancelled : Nat → Bool)
    (poll : Nat → Except GoError TaskResult) (fuel : Nat) :
    Option (Except GoError TaskResult × Nat) :=
  waitForCompletionAux cancelled poll 0 fuel

end Client

/-- A provider instance as built by `createProvider` (only the Kling arm
exists; the wrapper around the `kling` package provider is the
field-for-field `adapterWrapper`). -/
inductive ProviderInstance : Type where
  | kling (p : Kling.Provider)
  deriving DecidableEq, Repr

/-- `ProviderType` is a `string` type with declared constants `"kling"`,
`"jimeng"`, `"vidu"`. -/
abbrev ProviderType := String

def ProviderKling : ProviderType := "kling"
def ProviderJimeng : ProviderType := "jimeng"
def ProviderVidu : ProviderType := "vidu"

/-- `createProvider` (`src/client.go`): the switch has a single `ProviderKling`
arm calling `kling.New` on the field-for-field copied config; every other
provider type — including the declared `ProviderJimeng` / `ProviderVidu`
whose stub packages exist in the repository — hits the default arm and
returns `ErrUnsupportedProvider`. -/
def createProvider (providerType : ProviderType) (config : ProviderConfig) :
    Except GoError ProviderInstance :=
  if providerType = ProviderKling then
    match Kling.New (some config) with
    | .error e => .error e
    | .ok p => .ok (.kling p)
  else
    .error ErrUnsupportedProvider

/-- A constructed `Client{provider, config}`. -/
structure ClientState where
  provider : ProviderInstance
  config : ClientConfig
  deriving DecidableEq, Repr

/-- `NewClient`: builds the provider via `createProvider`, wrapping any
failure as `fmt.Errorf("failed to create provider: %w", err)`; the client
config defaults to `DefaultClientConfig()` when absent (or nil). -/
def NewClient (providerType : ProviderType) (providerConfig : ProviderConfig)
    (clientConfig : Option ClientConfig) : Except GoError ClientState :=
  match createProvider providerType providerConfig with
  | .error e => .error (.wrapped "failed to create provider" e)
  | .ok p => .ok { provider := p, config := clientConfig.getD DefaultClientConfig }

/-! ## Claim C1 -/

/-- C3, counterexample.  A request whose duration is neither 5.0 nor 10.0 is
claimed to always fail with a duration-specific ValidationError, but the
model check runs first: with an unsupported model and duration 7 the error
is the model ValidationError, not the duration one. -/
theorem C3_counterexample :
    KlingProvider.ValidateRequest { model := "bogus", duration := 7 } =
      some (.validationError "model" "unsupported model: bogus")
    ∧ (GoError.validationError "model" "unsupported model: bogus" ≠
        .validationError "duration" "Kling only supports 5s or 10s duration") := by
  constructor
  · decide
  · decide

/-- C3, amended: in `adapters.KlingProvider.ValidateRequest` the model check
precedes the duration check — a non-empty unsupported model fails with the
model ValidationError even when the duration is also invalid; a request
whose model passes (empty or supported) and whose duration is not exactly
5.0 or 10.0 fails with the duration-specific ValidationError; a request with
duration 5.0 or 10.0 and a passing model validates.  The `kling` package
variant accepts exactly the same requests (its failures are plain formatted
errors rather than typed ValidationErrors). -/
theorem C3_amended (req : GenerationRequest) :
    ((req.model = "" ∨ req.model ∈ KlingProvider.klingModels) → req.duration ≠ 5 →
      req.duration ≠ 10 →
      KlingProvider.ValidateRequest req =
        some (.validationError "duration" "Kling only supports 5s or 10s duration"))
    ∧ (req.model ≠ "" → req.model ∉ KlingProvider.klingModels →
      KlingProvider.ValidateRequest req =
        some (.validationError "model" ("unsupported model: " ++ req.model)))
    ∧ ((req.duration = 5 ∨ req.duration = 10) →
      (req.model = "" ∨ req.model ∈ KlingProvider.klingModels) →
      KlingProvider.ValidateRequest req = none)
    ∧ (Kling.ValidateRequest req = none ↔ KlingProvider.ValidateRequest req = none) := by
  have hm : KlingProvider.klingModels = Kling.supportedModels := rfl
  refine ⟨fun hmod h5 h10 => ?_, fun hne hnot => ?_, fun hdur hmod => ?_, ?_⟩
  · unfold KlingProvider.ValidateRequest
    split_ifs with h1 h2
    · tauto
    · rfl
    · tauto
  · unfold KlingProvider.ValidateRequest
    split_ifs with h1 h2
    · rfl
    · exact absurd ⟨hne, hnot⟩ h1
    · exact absurd ⟨hne, hnot⟩ h1
  · unfold KlingProvider.ValidateRequest
    split_ifs with h1 h2
    · tauto
    · tauto
    · rfl
  · unfold Kling.ValidateRequest KlingProvider.ValidateRequest
    rw [hm]
    split_ifs <;> simp

/-- C3, witness for the amended theorem: duration 7 with an empty model gives
the duration-specific ValidationError, and duration 5 with a supported model
passes both variants. -/
theorem C3_amended_witness :
    KlingProvider.ValidateRequest { duration := 7 } =
      some (.validationError "duration" "Kling only supports 5s or 10s duration")
    ∧ KlingProvider.ValidateRequest { duration := 5, model := "kling-v1" } = none :=
  ⟨(C3_amended { duration := 7 }).1 (Or.inl rfl) (by decide) (by decide),
   (C3_amended { duration := 5, model := "kling-v1" }).2.2.1 (Or.inl rfl) (Or.inr (by decide))⟩

/-! ## Claim C4 -/

/-- Unfolding equation for `Kling.New` on a present config. -/
theorem Kling_New_some (cfg : ProviderConfig) :
    Kling.New (some cfg) =
      match goSplit ',' cfg.apiKey.data with
      | [ak, sk] =>
        .ok { baseURL := if cfg.baseURL = "" then "https://api.klingai.com" else cfg.baseURL
              accessKey := String.mk (goTrimSpace ak)
              secretKey := String.mk (goTrimSpace sk) }
      | _ => .error (.formatted "invalid API key format for Kling, expected 'access_key,secret_key'") :=
  rfl

/-- C4, counterexample.  Construction is claimed to succeed iff the API key
splits on "," into exactly two non-empty parts, but `kling.New` only checks
the part count: the key `"ak,"` splits into `["ak", ""]` — the second part
empty — and construction nevertheless succeeds. -/
theorem C4_counterexample :
    (Kling.New (some { apiKey := "ak," })).isOk = true
    ∧ (goSplit ',' "ak,".data).map String.mk = ["ak", ""] := by
  constructor
  · decide
  · decide

/-- C4, amended: `kling.New` succeeds iff the API key splits on "," into
exactly two parts (they need not be non-empty), and on success every signed
token's issuer claim is the trimmed first part; in particular key "ak,sk"
yields issuer "ak", while "ak" alone and "ak,sk,extra" fail construction
with the format error. -/
theorem C4_amended (cfg : ProviderConfig) (now : Int) :
    ((Kling.New (some cfg)).isOk = true ↔ (goSplit ',' cfg.apiKey.data).length = 2)
    ∧ (∀ ak sk p, goSplit ',' cfg.apiKey.data = [ak, sk] → Kling.New (some cfg) = .ok p →
        (Kling.createJWTToken p now).iss = String.mk (goTrimSpace ak))
    ∧ (∀ p, Kling.New (some { cfg with apiKey := "ak,sk" }) = .ok p →
        (Kling.createJWTToken p now).iss = "ak")
    ∧ (Kling.New (some { cfg with apiKey := "ak" })).isOk = false
    ∧ (Kling.New (some { cfg with apiKey := "ak,sk,extra" })).isOk = false := by
  refine ⟨?_, fun ak sk p hsplit hok => ?_, fun p hok => ?_, ?_, ?_⟩
  · rw [Kling_New_some]
    match h : goSplit ',' cfg.apiKey.data with
    | [] => simp [Except.isOk, Except.toBool]
    | [a] => simp [Except.isOk, Except.toBool]
    | [a, b] => simp [Except.isOk, Except.toBool]
    | a :: b :: c :: rest => simp [Except.isOk, Except.toBool]
  · rw [Kling_New_some, hsplit] at hok
    cases hok
    rfl
  · rw [Kling_New_some] at hok
    have hsplit : goSplit ',' ("ak,sk" : String).data = ["ak".data, "sk".data] := by decide
    simp only at hok
    rw [hsplit] at hok
    cases hok
    rfl
  · rw [Kling_New_some]
    have hsplit : goSplit ',' ("ak" : String).data = ["ak".data] := by decide
    simp only
    rw [hsplit]
    rfl
  · rw [Kling_New_some]
    have hsplit : goSplit ',' ("ak,sk,extra" : String).data =
        ["ak".data, "sk".data, "extra".data] := by decide
    simp only
    rw [hsplit]
    rfl

/-- C4, witness for the amended theorem at key "ak,sk" and `now = 0`. -/
theorem C4_amended_witness :
    (Kling.createJWTToken
      { baseURL := "https://api.klingai.com", accessKey := "ak", secretKey := "sk" } 0).iss = "ak"
    ∧ (Kling.New (some { apiKey := "ak" })).isOk = false :=
  ⟨(C4_amended {} 0).2.2.1 _ (by decide), (C4_amended {} 0).2.2.2.1⟩

/-! ## Claim C5 -/

/-- C5, counterexample.  `Error` is claimed to be populated iff the status is
failed, but `convertToTaskResult` never assigns the `Error` field: a vendor
payload with status "failed" converts to a failed TaskResult whose `Error`
is nil. -/
theorem C5_counterexample :
    (Kling.convertToTaskResult { id := "t", status := "failed" }).status = TaskStatusFailed
    ∧ (Kling.convertToTaskResult { id := "t", status := "failed" }).error = none := by
  constructor
  · decide
  · decide

/-- C5, amended: every TaskResult produced by `convertToTaskResult` has a
status among {queued, processing, succeeded, failed}; its URL and Format are
populated from the first video exactly when the vendor payload carries at
least one video — regardless of status — with Metadata additionally
requiring the video's duration string to parse; and the `Error` field is
never populated, not even for failed tasks. -/
theorem C5_amended (data : KlingTaskResult) :
    ((Kling.convertToTaskResult data).status = TaskStatusQueued
      ∨ (Kling.convertToTaskResult data).status = TaskStatusProcessing
      ∨ (Kling.convertToTaskResult data).status = TaskStatusSucceeded
      ∨ (Kling.convertToTaskResult data).status = TaskStatusFailed)
    ∧ (Kling.convertToTaskResult data).error = none
    ∧ (∀ tr video rest, data.taskResult = some tr → tr.videos = video :: rest →
        (Kling.convertToTaskResult data).url = video.url
        ∧ (Kling.convertToTaskResult data).format = "mp4"
        ∧ (Kling.convertToTaskResult data).metadata =
            (goParseFloat video.duration).map (fun d => { duration := d, format := "mp4" }))
    ∧ ((data.taskResult = none ∨ ∃ tr, data.taskResult = some tr ∧ tr.videos = []) →
        (Kling.convertToTaskResult data).url = ""
        ∧ (Kling.convertToTaskResult data).metadata = none) := by
  have hstatus : ∀ s, Kling.convertStatus s = TaskStatusQueued
      ∨ Kling.convertStatus s = TaskStatusProcessing
      ∨ Kling.convertStatus s = TaskStatusSucceeded
      ∨ Kling.convertStatus s = TaskStatusFailed := by
    intro s
    unfold Kling.convertStatus
    split_ifs <;> simp
  refine ⟨?_, ?_, fun tr video rest htr hvid => ?_, fun hempty => ?_⟩
  · cases htr : data.taskResult with
    | none => simpa [Kling.convertToTaskResult, htr] using hstatus data.status
    | some tr =>
      cases hvid : tr.videos with
      | nil => simpa [Kling.convertToTaskResult, htr, hvid] using hstatus data.status
      | cons video rest =>
        cases hp : goParseFloat video.duration with
        | none => simpa [Kling.convertToTaskResult, htr, hvid, hp] using hstatus data.status
        | some d => simpa [Kling.convertToTaskResult, htr, hvid, hp] using hstatus data.status
  · cases htr : data.taskResult with
    | none => simp [Kling.convertToTaskResult, htr]
    | some tr =>
      cases hvid : tr.videos with
      | nil => simp [Kling.convertToTaskResult, htr, hvid]
      | cons video rest =>
        cases hp : goParseFloat video.duration with
        | none => simp [Kling.convertToTaskResult, htr, hvid, hp]
        | some d => simp [Kling.convertToTaskResult, htr, hvid, hp]
  · cases hp : goParseFloat video.duration with
    | none => simp [Kling.convertToTaskResult, htr, hvid, hp]
    | some d => simp [Kling.convertToTaskResult, htr, hvid, hp]
  · rcases hempty with h | ⟨tr, htr, hvid⟩
    · simp [Kling.convertToTaskResult, h]
    · simp [Kling.convertToTaskResult, htr, hvid]

/-- C5, witness for the amended theorem: a succeeded payload with one video
whose duration string parses gets URL, format and metadata; the failed
payload of the counterexample keeps `Error` nil. -/
theorem C5_amended_witness :
    (Kling.convertToTaskResult
      { id := "t", status := "succeed",
        taskResult := some { videos := [{ id := "v", url := "http://v.mp4", duration := "5" }] } }).url =
      "http://v.mp4"
    ∧ (Kling.convertToTaskResult
      { id := "t", status := "succeed",
        taskResult := some { videos := [{ id := "v", url := "http://v.mp4", duration := "5" }] } }).metadata =
      (goParseFloat "5").map (fun d => { duration := d, format := "mp4" }) :=
  ⟨((C5_amended _).2.2.1 _ _ [] rfl rfl).1, ((C5_amended _).2.2.1 _ _ [] rfl rfl).2.2⟩

/-! ## Claim C6 -/

/-- C6: `Client.CreateGeneration` rejects a nil request, an empty
prompt+image pair, and non-positive duration/width/height with the matching
local `*ValidationError` and zero provider invocations (hence zero network
calls), whatever the provider's own validator would say; the provider's
`ValidateRequest` is consulted — and decides — exactly when every local
check passes. -/
theorem C6_local_validation (cfg : ClientConfig) (cancelled : Nat → Bool)
    (attempt : Nat → Except GoError GenerationResponse) :
    (∀ pv, Client.CreateGeneration cfg pv cancelled attempt none =
      (.error (.validationError "request" "request cannot be nil"), 0))
    ∧ (∀ pv req, req.prompt = "" → req.image = "" →
        Client.CreateGeneration cfg pv cancelled attempt (some req) =
          (.error (.validationError "prompt/image"
            "at least one of prompt or image must be provided"), 0))
    ∧ (∀ pv req, (req.prompt ≠ "" ∨ req.image ≠ "") → req.duration ≤ 0 →
        Client.CreateGeneration cfg pv cancelled attempt (some req) =
          (.error (.validationError "duration" "duration must be positive"), 0))
    ∧ (∀ pv req, (req.prompt ≠ "" ∨ req.image ≠ "") → 0 < req.duration → req.width ≤ 0 →
        Client.CreateGeneration cfg pv cancelled attempt (some req) =
          (.error (.validationError "width" "width must be positive"), 0))
    ∧ (∀ pv req, (req.prompt ≠ "" ∨ req.image ≠ "") → 0 < req.duration → 0 < req.width →
        req.height ≤ 0 →
        Client.CreateGeneration cfg pv cancelled attempt (some req) =
          (.error (.validationError "height" "height must be positive"), 0))
    ∧ (∀ pv req, (req.prompt ≠ "" ∨ req.image ≠ "") → 0 < req.duration → 0 < req.width →
        0 < req.height →
        Client.validateRequest pv (some req) = pv req) := by
  refine ⟨fun pv => rfl, fun pv req hp hi => ?_, fun pv req hpi hd => ?_,
    fun pv req hpi hd hw => ?_, fun pv req hpi hd hw hh => ?_, fun pv req hpi hd hw hh => ?_⟩
  · simp [Client.CreateGeneration, Client.validateRequest, hp, hi]
  · have hne : ¬(req.prompt = "" ∧ req.image = "") := by tauto
    simp [Client.CreateGeneration, Client.validateRequest, hne, hd]
  · have hne : ¬(req.prompt = "" ∧ req.image = "") := by tauto
    simp [Client.CreateGeneration, Client.validateRequest, hne, not_le.mpr hd, hw]
  · have hne : ¬(req.prompt = "" ∧ req.image = "") := by tauto
    simp [Client.CreateGeneration, Client.validateRequest, hne, not_le.mpr hd,
      not_le.mpr hw, hh]
  · have hne : ¬(req.prompt = "" ∧ req.image = "") := by tauto
    simp [Client.validateRequest, hne, not_le.mpr hd, not_le.mpr hw, not_le.mpr hh]

/-- C6, witness: a request with empty prompt and image is rejected with the
prompt/image ValidationError and zero provider calls, even when the provider
validator would reject for another reason; a locally valid request reaches
the provider validator. -/
theorem C6_local_validation_witness :
    Client.CreateGeneration DefaultClientConfig (fun _ => some (.formatted "provider hit"))
      (fun _ => false) (fun _ => .ok { taskID := "t", status := TaskStatusQueued })
      (some { duration := 5, width := 512, height := 512 }) =
      (.error (.validationError "prompt/image"
        "at least one of prompt or image must be provided"), 0)
    ∧ Client.validateRequest (fun _ => some (.formatted "provider hit"))
        (some { prompt := "p", duration := 5, width := 512, height := 512 }) =
      some (.formatted "provider hit") :=
  ⟨(C6_local_validation DefaultClientConfig (fun _ => false)
      (fun _ => .ok { taskID := "t", status := TaskStatusQueued })).2.1
      _ { duration := 5, width := 512, height := 512 } rfl rfl,
   (C6_local_validation DefaultClientConfig (fun _ => false)
      (fun _ => .ok { taskID := "t", status := TaskStatusQueued })).2.2.2.2.2
      _ { prompt := "p", duration := 5, width := 512, height := 512 }
      (Or.inl (by decide)) (by norm_num) (by decide) (by decide)⟩

/-! ## Claim C8 -/

/-- C8: when the context is already done before the first tick fires,
`WaitForCompletion` returns the context's cancellation error immediately,
with zero `GetGeneration` calls (and therefore zero HTTP calls), whatever
the poll oracle would have returned. -/
theorem C8_cancelled_before_first_tick (cancelled : Nat → Bool)
    (poll : Nat → Except GoError TaskResult) (fuel : Nat)
    (hc : cancelled 0 = true) (hf : 1 ≤ fuel) :
    Client.WaitForCompletion cancelled poll fuel = some (.error ctxCanceledErr, 0) := by
  obtain ⟨f, rfl⟩ : ∃ f, fuel = f + 1 := ⟨fuel - 1, by omega⟩
  simp [Client.WaitForCompletion, Client.waitForCompletionAux, hc]

/-- C8, witness: an always-cancelled context with a poll oracle that would
error if consulted. -/
theorem C8_cancelled_witness :
    Client.WaitForCompletion (fun _ => true) (fun _ => .error (.formatted "no call expected")) 10 =
      some (.error ctxCanceledErr, 0) :=
  C8_cancelled_before_first_tick (fun _ => true) (fun _ => .error (.formatted "no call expected"))
    10 rfl (by omega)

/-! ## Claim C9 -/

/-- C9, counterexample.  At width 6755399441055746 (3·2⁵¹ + 2) and height
4503599627370497 (2⁵² + 1) — both positive and exactly representable in
binary64 — the exact ratio exceeds 1.5 by 1/(2·height), which is under half
an ulp, so the `float64` division rounds to exactly 1.5: the program
returns "1:1" although the claim's real-ratio characterization demands
"16:9". -/
theorem C9_counterexample :
    Kling.getAspectRatio 6755399441055746 4503599627370497 = "1:1"
    ∧ (6755399441055746 : ℚ) / 4503599627370497 > 3 / 2
    ∧ Kling.floatRatio 6755399441055746 4503599627370497 = mkRat 3 2 := by
  refine ⟨by decide, by norm_num, by decide⟩

/-- C9, amended: the bucket is computed from the `float64`-rounded quotient,
not the exact ratio — "16:9" exactly when the rounded quotient exceeds 1.5,
"9:16" exactly when it is below the binary64 value of the literal 0.7
(itself slightly below 7/10), and "1:1" otherwise; the literal 1.5 is
exactly representable.  At the claim's example pairs the rounding is
immaterial: 1920×1080 ↦ "16:9", 1080×1920 ↦ "9:16", 1024×1024 ↦ "1:1". -/
theorem C9_amended (w h : Int) (_hw : 0 < w) (_hh : 0 < h) :
    (Kling.getAspectRatio w h = "16:9" ↔ Kling.floatRatio w h > mkRat 3 2)
    ∧ (Kling.getAspectRatio w h = "9:16" ↔ Kling.floatRatio w h < roundFloat (mkRat 7 10))
    ∧ (Kling.getAspectRatio w h = "1:1" ↔
        ¬(Kling.floatRatio w h > mkRat 3 2) ∧ ¬(Kling.floatRatio w h < roundFloat (mkRat 7 10)))
    ∧ roundFloat (mkRat 3 2) = mkRat 3 2
    ∧ roundFloat (mkRat 7 10) < mkRat 7 10
    ∧ Kling.getAspectRatio 1920 1080 = "16:9"
    ∧ Kling.getAspectRatio 1080 1920 = "9:16"
    ∧ Kling.getAspectRatio 1024 1024 = "1:1" := by
  have h07 : roundFloat (mkRat 7 10) < mkRat 3 2 := by decide
  refine ⟨?_, ?_, ?_, by decide, by decide, by decide, by decide, by decide⟩
  · simp only [Kling.getAspectRatio]
    split_ifs with h1 h2 <;> simp_all
  · simp only [Kling.getAspectRatio]
    split_ifs with h1 h2 <;> simp_all
    linarith
  · simp only [Kling.getAspectRatio]
    split_ifs with h1 h2 <;> simp_all

/-- C9, witness for the amended theorem at the claim's three example
dimension pairs. -/
theorem C9_amended_witness :
    Kling.getAspectRatio 1920 1080 = "16:9"
    ∧ Kling.getAspectRatio 1080 1920 = "9:16"
    ∧ Kling.getAspectRatio 1024 1024 = "1:1" :=
  ⟨(C9_amended 1920 1080 (by omega) (by omega)).2.2.2.2.2.1,
   (C9_amended 1920 1080 (by omega) (by omega)).2.2.2.2.2.2.1,
   (C9_amended 1920 1080 (by omega) (by omega)).2.2.2.2.2.2.2⟩

/-! ## Claim C10 -/

/-- C10: every provider type other than "kling" — including the declared
constants `ProviderJimeng` and `ProviderVidu`, whose stub packages exist in
the repository — makes `createProvider` return `ErrUnsupportedProvider`, so
`NewClient` returns the wrapped error (still matched by `errors.Is` against
`ErrUnsupportedProvider`) and never constructs a client. -/
theorem C10_unsupported_providers (pt : ProviderType) (config : ProviderConfig)
    (cc : Option ClientConfig) (hpt : pt ≠ ProviderKling) :
    createProvider pt config = .error ErrUnsupportedProvider
    ∧ NewClient pt config cc = .error (.wrapped "failed to create provider" ErrUnsupportedProvider)
    ∧ errorsIs (.wrapped "failed to create provider" ErrUnsupportedProvider)
        ErrUnsupportedProvider = true
    ∧ (∀ c, NewClient pt config cc ≠ .ok c)
    ∧ ProviderJimeng ≠ ProviderKling
    ∧ ProviderVidu ≠ ProviderKling := by
  have hcp : createProvider pt config = .error ErrUnsupportedProvider := by
    simp [createProvider, hpt]
  refine ⟨hcp, ?_, by decide, ?_, by decide, by decide⟩
  · simp [NewClient, hcp]
  · intro c hc
    rw [NewClient, hcp] at hc
    exact Except.noConfusion hc

/-- C10, witness at the exported stub constants. -/
theorem C10_unsupported_providers_witness :
    createProvider ProviderVidu { apiKey := "k" } = .error ErrUnsupportedProvider
    ∧ NewClient ProviderJimeng { apiKey := "k" } none =
      .error (.wrapped "failed to create provider" ErrUnsupportedProvider) :=
  ⟨(C10_unsupported_providers ProviderVidu { apiKey := "k" } none (by decide)).1,
   (C10_unsupported_providers ProviderJimeng { apiKey := "k" } none (by decide)).2.1⟩

/-! ## Claim C7 -/

/-- The polling loop, run from tick `i` with an uncancelled context, skips
`k` queued/processing polls and returns the first poll whose status is
neither queued nor processing, unchanged and without error. -/
theorem waitForCompletionAux_first_terminal (cancelled : Nat → Bool)
    (poll : Nat → Except GoError TaskResult) (hnc : ∀ i, cancelled i = false)
    (r : TaskResult) (hq : r.status ≠ TaskStatusQueued)
    (hp : r.status ≠ TaskStatusProcessing) :
    ∀ (k i fuel : Nat),
      (∀ t, t < k → ∃ rt, poll (i + t) = .ok rt ∧
        (rt.status = TaskStatusQueued ∨ rt.status = TaskStatusProcessing)) →
      poll (i + k) = .ok r → k < fuel →
      Client.waitForCompletionAux cancelled poll i fuel = some (.ok r, i + k + 1) := by
  intro k
  induction k with
  | zero =>
    intro i fuel _hpre hterm hfuel
    obtain ⟨f, rfl⟩ : ∃ f, fuel = f + 1 := ⟨fuel - 1, by omega⟩
    rw [Nat.add_zero] at hterm
    rw [Client.waitForCompletionAux]
    simp only [hnc i, Bool.false_eq_true, if_false, hterm, Nat.add_zero]
    split_ifs with h1 h2
    · rfl
    · exact absurd h2 (by tauto)
    · rfl
  | succ k ih =>
    intro i fuel hpre hterm hfuel
    obtain ⟨f, rfl⟩ : ∃ f, fuel = f + 1 := ⟨fuel - 1, by omega⟩
    obtain ⟨r0, hp0, hs0⟩ := hpre 0 (by omega)
    rw [Nat.add_zero] at hp0
    rw [Client.waitForCompletionAux]
    simp only [hnc i, Bool.false_eq_true, if_false, hp0]
    have hterm' : poll (i + 1 + k) = .ok r := by
      rw [show i + 1 + k = i + (k + 1) by omega]; exact hterm
    have hpre' : ∀ t, t < k → ∃ rt, poll (i + 1 + t) = .ok rt ∧
        (rt.status = TaskStatusQueued ∨ rt.status = TaskStatusProcessing) := by
      intro t ht
      obtain ⟨rt, hprt, hsrt⟩ := hpre (t + 1) (by omega)
      exact ⟨rt, by rw [show i + 1 + t = i + (t + 1) by omega]; exact hprt, hsrt⟩
    have hrec := ih (i + 1) f hpre' hterm' (by omega)
    split_ifs with h1
    · rcases hs0 with h | h <;> rw [h] at h1 <;> exact absurd h1 (by decide)
    · rw [hrec, show i + 1 + k + 1 = i + (k + 1) + 1 by omega]

/-- C7: `WaitForCompletion` under an uncancelled context keeps polling while
`GetGeneration` reports queued or processing, and returns at the first poll
whose status is anything else — succeeded, failed, or unrecognized — with
that TaskResult unchanged, no error, and exactly `j + 1` `GetGeneration`
calls when the terminal result arrives on poll `j`. -/
theorem C7_wait_first_terminal (cancelled : Nat → Bool)
    (poll : Nat → Except GoError TaskResult) (hnc : ∀ i, cancelled i = false)
    (j : Nat) (r : TaskResult)
    (hpre : ∀ t, t < j → ∃ rt, poll t = .ok rt ∧
      (rt.status = TaskStatusQueued ∨ rt.status = TaskStatusProcessing))
    (hterm : poll j = .ok r)
    (hq : r.status ≠ TaskStatusQueued) (hp : r.status ≠ TaskStatusProcessing) :
    ∀ fuel, j < fuel → Client.WaitForCompletion cancelled poll fuel = some (.ok r, j + 1) := by
  intro fuel hfuel
  have := waitForCompletionAux_first_terminal cancelled poll hnc r hq hp j 0 fuel
    (by simpa using hpre) (by simpa using hterm) hfuel
  simpa [Client.WaitForCompletion] using this

/-- C7, witness: a task reporting queued, processing, then succeeded over
three successive polls makes `WaitForCompletion` stop after the third
`GetGeneration` call and return the succeeded TaskResult unchanged. -/
theorem C7_wait_first_terminal_witness :
    Client.WaitForCompletion (fun _ => false)
      (fun i => if i = 0 then .ok { taskID := "t", status := TaskStatusQueued }
        else if i = 1 then .ok { taskID := "t", status := TaskStatusProcessing }
        else .ok { taskID := "t", status := TaskStatusSucceeded, url := "http://v.mp4" }) 10 =
      some (.ok { taskID := "t", status := TaskStatusSucceeded, url := "http://v.mp4" }, 3) :=
  C7_wait_first_terminal (fun _ => false) _ (fun _ => rfl) 2
    { taskID := "t", status := TaskStatusSucceeded, url := "http://v.mp4" }
    (by
      intro t ht
      match t, ht with
      | 0, _ => exact ⟨_, rfl, Or.inl rfl⟩
      | 1, _ => exact ⟨_, rfl, Or.inr rfl⟩)
    rfl (by decide) (by decide) 10 (by omega)

/-! ## Claim C2 -/

/-- The retry loop performs at most as many provider invocations as it has
iterations left. -/
theorem retryLoopAux_calls_le {α : Type} (cancelled : Nat → Bool)
    (attempt : Nat → Except GoError α) :
    ∀ (r i : Nat) (last : Option GoError),
      (Client.retryLoopAux cancelled attempt i r last).2 ≤ r := by
  intro r
  induction r with
  | zero => intro i last; simp [Client.retryLoopAux]
  | succ r ih =>
    intro i last
    rw [Client.retryLoopAux]
    split_ifs with h1
    · simp
    · cases h : attempt i with
      | ok v => simp
      | error e =>
        dsimp only
        split_ifs with h2
        · simpa using Nat.succ_le_succ (ih (i + 1) (some e))
        · simp

/-- When the context stays live, `k` retryable failures starting at attempt
`i` followed by a success at attempt `i + k` make the loop return that
success after exactly `k + 1` provider invocations — the loop stops at the
first success, wherever it occurs within the remaining iterations. -/
theorem retryLoopAux_first_ok {α : Type} (cancelled : Nat → Bool)
    (attempt : Nat → Except GoError α) (hnc : ∀ i, cancelled i = false) (v : α) :
    ∀ (k i r : Nat) (last : Option GoError),
      (∀ t, t < k → ∃ e, attempt (i + t) = .error e ∧ IsRetryableError e = true) →
      attempt (i + k) = .ok v → k < r →
      Client.retryLoopAux cancelled attempt i r last = (.ok v, k + 1) := by
  intro k
  induction k with
  | zero =>
    intro i r last _hpre hok hr
    obtain ⟨r', rfl⟩ : ∃ r', r = r' + 1 := ⟨r - 1, by omega⟩
    rw [Nat.add_zero] at hok
    rw [Client.retryLoopAux]
    simp [hnc i, hok]
  | succ k ih =>
    intro i r last hpre hok hr
    obtain ⟨r', rfl⟩ : ∃ r', r = r' + 1 := ⟨r - 1, by omega⟩
    obtain ⟨e0, he0, hr0⟩ := hpre 0 (by omega)
    rw [Nat.add_zero] at he0
    have hrec := ih (i + 1) r' (some e0)
      (fun t ht => by
        obtain ⟨e', he', hr'⟩ := hpre (t + 1) (by omega)
        exact ⟨e', by rw [show i + 1 + t = i + (t + 1) by omega]; exact he', hr'⟩)
      (by rw [show i + 1 + k = i + (k + 1) by omega]; exact hok) (by omega)
    rw [Client.retryLoopAux]
    simp [hnc i, he0, hr0, hrec]

/-- When the context stays live, `k` retryable failures starting at attempt
`i` followed by a non-retryable error at attempt `i + k` make the loop break
and return that error as-is after exactly `k + 1` provider invocations — the
loop stops at the first non-retryable error, wherever it occurs. -/
theorem retryLoopAux_first_fatal {α : Type} (cancelled : Nat → Bool)
    (attempt : Nat → Except GoError α) (hnc : ∀ i, cancelled i = false) (e : GoError) :
    ∀ (k i r : Nat) (last : Option GoError),
      (∀ t, t < k → ∃ e', attempt (i + t) = .error e' ∧ IsRetryableError e' = true) →
      attempt (i + k) = .error e → IsRetryableError e = false → k < r →
      Client.retryLoopAux cancelled attempt i r last = (.error e, k + 1) := by
  intro k
  induction k with
  | zero =>
    intro i r last _hpre he hnr hr
    obtain ⟨r', rfl⟩ : ∃ r', r = r' + 1 := ⟨r - 1, by omega⟩
    rw [Nat.add_zero] at he
    rw [Client.retryLoopAux]
    simp [hnc i, he, hnr]
  | succ k ih =>
    intro i r last hpre he hnr hr
    obtain ⟨r', rfl⟩ : ∃ r', r = r' + 1 := ⟨r - 1, by omega⟩
    obtain ⟨e0, he0, hr0⟩ := hpre 0 (by omega)
    rw [Nat.add_zero] at he0
    have hrec := ih (i + 1) r' (some e0)
      (fun t ht => by
        obtain ⟨e', he', hr'⟩ := hpre (t + 1) (by omega)
        exact ⟨e', by rw [show i + 1 + t = i + (t + 1) by omega]; exact he', hr'⟩)
      (by rw [show i + 1 + k = i + (k + 1) by omega]; exact he) hnr (by omega)
    rw [Client.retryLoopAux]
    simp [hnc i, he0, hr0, hrec]

/-- When the context stays live, `k` retryable failures followed by any
error at the final remaining attempt `i + k` — retryable or not — make the
loop end after all `k + 1` iterations and return that last observed error
unchanged. -/
theorem retryLoopAux_exhaust {α : Type} (cancelled : Nat → Bool)
    (attempt : Nat → Except GoError α) (hnc : ∀ i, cancelled i = false) :
    ∀ (k i : Nat) (last : Option GoError),
      (∀ t, t < k → ∃ e, attempt (i + t) = .error e ∧ IsRetryableError e = true) →
      ∀ e, attempt (i + k) = .error e →
      Client.retryLoopAux cancelled attempt i (k + 1) last =
        (.error e, k + 1) := by
  intro k
  induction k with
  | zero =>
    intro i last _hpre e he
    rw [Nat.add_zero] at he
    cases hr : IsRetryableError e with
    | false =>
      rw [Client.retryLoopAux]
      simp [hnc i, he, hr]
    | true =>
      rw [Client.retryLoopAux]
      simp [hnc i, he, hr, Client.retryLoopAux]
  | succ k ih =>
    intro i last hpre e he
    obtain ⟨e0, he0, hr0⟩ := hpre 0 (by omega)
    rw [Nat.add_zero] at he0
    have hrec := ih (i + 1) (some e0)
      (fun t ht => by
        obtain ⟨e', he', hr'⟩ := hpre (t + 1) (by omega)
        exact ⟨e', by rw [show i + 1 + t = i + (t + 1) by omega]; exact he', hr'⟩)
      e (by rw [show i + 1 + k = i + (k + 1) by omega]; exact he)
    rw [Client.retryLoopAux]
    simp [hnc i, he0, hr0, hrec]

/-- C2: with a live context, `Client.CreateGeneration` (past validation) and
`Client.GetGeneration` (past the task-ID check) run one shared retry loop
that invokes the provider at most `MaxRetries + 1` times; for every outcome
sequence the loop stops at the first success — wherever it occurs — stops at
the first non-retryable error returning it as-is, and when every attempt
fails (the last one retryably or not) it returns the last observed error
unchanged after `MaxRetries + 1` invocations; under the forced sequence
[APIError 503, APIError 503, success] with `MaxRetries ≥ 2` the loop
succeeds on the third invocation, and under [APIError 400] it fails after
exactly one invocation. -/
theorem C2_retry_policy (cfg : ClientConfig) (cancelled : Nat → Bool)
    (pv : GenerationRequest → Option GoError)
    (attemptC : Nat → Except GoError GenerationResponse)
    (attemptG : Nat → Except GoError TaskResult)
    (req : GenerationRequest) (taskID : String)
    (hnc : ∀ i, cancelled i = false)
    (hreq : Client.validateRequest pv (some req) = none) (htid : taskID ≠ "") :
    (Client.CreateGeneration cfg pv cancelled attemptC (some req)).2 ≤ cfg.maxRetries + 1
    ∧ (Client.GetGeneration cfg cancelled attemptG taskID).2 ≤ cfg.maxRetries + 1
    ∧ Client.CreateGeneration cfg pv cancelled attemptC (some req) =
        Client.retryLoop cfg.maxRetries cancelled attemptC
    ∧ Client.GetGeneration cfg cancelled attemptG taskID =
        Client.retryLoop cfg.maxRetries cancelled attemptG
    ∧ (∀ j v, j ≤ cfg.maxRetries →
        (∀ t, t < j → ∃ e, attemptC t = .error e ∧ IsRetryableError e = true) →
        attemptC j = .ok v →
        Client.retryLoop cfg.maxRetries cancelled attemptC = (.ok v, j + 1))
    ∧ (∀ j e, j ≤ cfg.maxRetries →
        (∀ t, t < j → ∃ e', attemptC t = .error e' ∧ IsRetryableError e' = true) →
        attemptC j = .error e → IsRetryableError e = false →
        Client.retryLoop cfg.maxRetries cancelled attemptC = (.error e, j + 1))
    ∧ ((∀ t, t < cfg.maxRetries → ∃ e, attemptC t = .error e ∧ IsRetryableError e = true) →
        ∀ e, attemptC cfg.maxRetries = .error e →
        Client.retryLoop cfg.maxRetries cancelled attemptC =
          (.error e, cfg.maxRetries + 1))
    ∧ (2 ≤ cfg.maxRetries → ∀ m1 m2 v,
        attemptC 0 = .error (.apiError 503 m1 "Kling") →
        attemptC 1 = .error (.apiError 503 m2 "Kling") →
        attemptC 2 = .ok v →
        Client.retryLoop cfg.maxRetries cancelled attemptC = (.ok v, 3))
    ∧ (∀ m, attemptG 0 = .error (.apiError 400 m "Kling") →
        Client.retryLoop cfg.maxRetries cancelled attemptG =
          (.error (.apiError 400 m "Kling"), 1)) := by
  have hcreate : Client.CreateGeneration cfg pv cancelled attemptC (some req) =
      Client.retryLoop cfg.maxRetries cancelled attemptC := by
    simp [Client.CreateGeneration, hreq]
  have hget : Client.GetGeneration cfg cancelled attemptG taskID =
      Client.retryLoop cfg.maxRetries cancelled attemptG := by
    simp [Client.GetGeneration, htid]
  have hfirstok : ∀ j v, j ≤ cfg.maxRetries →
      (∀ t, t < j → ∃ e, attemptC t = .error e ∧ IsRetryableError e = true) →
      attemptC j = .ok v →
      Client.retryLoop cfg.maxRetries cancelled attemptC = (.ok v, j + 1) := by
    intro j v hj hpre hok
    rw [Client.retryLoop]
    exact retryLoopAux_first_ok cancelled attemptC hnc v j 0 (cfg.maxRetries + 1) none
      (fun t ht => by simpa using hpre t ht) (by simpa using hok) (by omega)
  refine ⟨?_, ?_, hcreate, hget, hfirstok, fun j e hj hpre he hnr => ?_, fun hall e he => ?_,
    fun hm m1 m2 v h0 h1 h2 => ?_, fun m h0 => ?_⟩
  · rw [hcreate, Client.retryLoop]
    exact retryLoopAux_calls_le cancelled attemptC (cfg.maxRetries + 1) 0 none
  · rw [hget, Client.retryLoop]
    exact retryLoopAux_calls_le cancelled attemptG (cfg.maxRetries + 1) 0 none
  · rw [Client.retryLoop]
    exact retryLoopAux_first_fatal cancelled attemptC hnc e j 0 (cfg.maxRetries + 1) none
      (fun t ht => by simpa using hpre t ht) (by simpa using he) hnr (by omega)
  · rw [Client.retryLoop]
    exact retryLoopAux_exhaust cancelled attemptC hnc cfg.maxRetries 0 none
      (fun t ht => by simpa using hall t ht) e (by simpa using he)
  · refine hfirstok 2 v hm (fun t ht => ?_) h2
    match t, ht with
    | 0, _ => exact ⟨.apiError 503 m1 "Kling", h0, rfl⟩
    | 1, _ => exact ⟨.apiError 503 m2 "Kling", h1, rfl⟩
  · rw [Client.retryLoop]
    exact retryLoopAux_first_fatal cancelled attemptG hnc (.apiError 400 m "Kling") 0 0
      (cfg.maxRetries + 1) none (fun t ht => by omega) (by simpa using h0) rfl (by omega)

/-- C2, witness: MaxRetries 3, a request passing validation, and three
forced outcome sequences — [503, 503, success] succeeding on the third
provider invocation, [503, success] succeeding on the second, and [400]
failing after exactly one invocation. -/
theorem C2_retry_policy_witness :
    Client.CreateGeneration DefaultClientConfig (fun _ => none) (fun _ => false)
      (fun i => if i = 0 then .error (.apiError 503 "busy" "Kling")
        else if i = 1 then .error (.apiError 503 "busy again" "Kling")
        else .ok { taskID := "t", status := TaskStatusQueued })
      (some { prompt := "p", duration := 5, width := 512, height := 512 }) =
      (.ok { taskID := "t", status := TaskStatusQueued }, 3)
    ∧ Client.CreateGeneration DefaultClientConfig (fun _ => none) (fun _ => false)
        (fun i => if i = 0 then .error (.apiError 503 "busy" "Kling")
          else .ok { taskID := "t", status := TaskStatusQueued })
        (some { prompt := "p", duration := 5, width := 512, height := 512 }) =
      (.ok { taskID := "t", status := TaskStatusQueued }, 2)
    ∧ Client.GetGeneration DefaultClientConfig (fun _ => false)
        (fun _ => .error (.apiError 400 "bad request" "Kling")) "task-1" =
      (.error (.apiError 400 "bad request" "Kling"), 1) := by
  have h := C2_retry_policy DefaultClientConfig (fun _ => false) (fun _ => none)
    (fun i => if i = 0 then .error (.apiError 503 "busy" "Kling")
      else if i = 1 then .error (.apiError 503 "busy again" "Kling")
      else .ok { taskID := "t", status := TaskStatusQueued })
    (fun _ => .error (.apiError 400 "bad request" "Kling"))
    { prompt := "p", duration := 5, width := 512, height := 512 } "task-1"
    (fun _ => rfl) (by decide) (by decide)
  have h' := C2_retry_policy DefaultClientConfig (fun _ => false) (fun _ => none)
    (fun i => if i = 0 then .error (.apiError 503 "busy" "Kling")
      else .ok { taskID := "t", status := TaskStatusQueued })
    (fun _ => .error (.apiError 400 "bad request" "Kling"))
    { prompt := "p", duration := 5, width := 512, height := 512 } "task-1"
    (fun _ => rfl) (by decide) (by decide)
  refine ⟨?_, ?_, ?_⟩
  · rw [h.2.2.1]
    exact h.2.2.2.2.2.2.2.1 (by decide) "busy" "busy again" _ rfl rfl rfl
  · rw [h'.2.2.1]
    refine h'.2.2.2.2.1 1 _ (by decide) (fun t ht => ?_) rfl
    match t, ht with
    | 0, _ => exact ⟨.apiError 503 "busy" "Kling", rfl, rfl⟩
  · rw [h.2.2.2.1]
    exact h.2.2.2.2.2.2.2.2 "bad request" rfl

end Vidgo
